import Mathlib

/-!
# Verification of the crm-2 admin-form logic

Shallow embedding of the validation/normalization engine (course form,
`src/unnamed/part_000`) and the upload lifecycle manager / CMS component
form (`src/src/pages/SiteComponentsForm.tsx`), with theorems settling the
frozen claims about them.

JavaScript strings are modelled as Lean `String`, absent/null values as
`Option`, growth of numbers is unbounded (`Nat`/`ℚ`) since no arithmetic
here approaches 2^53.
-/

namespace Crm2

/-! ## JavaScript primitives used by the handlers -/

/-- Character class of the JS regex `\s` (and of `String.prototype.trim`):
ASCII whitespace, NBSP, BOM, and the Unicode space separators. -/
def jsIsWhitespace (c : Char) : Bool :=
  c.toNat = 0x20 || c.toNat = 0x09 || c.toNat = 0x0a || c.toNat = 0x0d ||
  c.toNat = 0x0b || c.toNat = 0x0c || c.toNat = 0xa0 ||
  c.toNat = 0x1680 || (0x2000 ≤ c.toNat && c.toNat ≤ 0x200a) ||
  c.toNat = 0x2028 || c.toNat = 0x2029 || c.toNat = 0x202f ||
  c.toNat = 0x205f || c.toNat = 0x3000 || c.toNat = 0xfeff

/-- `String.prototype.trim`: strip leading and trailing `\s` characters. -/
def jsTrim (s : String) : String :=
  ⟨((s.data.dropWhile jsIsWhitespace).reverse.dropWhile jsIsWhitespace).reverse⟩

/-- Value of a list of decimal digit characters, most significant first
(the result of `parseInt(t, 10)` on an all-digit string `t`). -/
def parseDigits (l : List Char) : Nat :=
  l.foldl (fun a c => a * 10 + (c.toNat - 48)) 0

/-- Decimal digit characters of `n`, most significant first. -/
def natDigits (n : Nat) : List Char :=
  if h : n < 10 then [Char.ofNat (48 + n)]
  else natDigits (n / 10) ++ [Char.ofNat (48 + n % 10)]
decreasing_by exact Nat.div_lt_self (by omega) (by omega)

/-! ## Course form: `parcelas` input normalization and schema rule

`onChange` handler (part_000 line 412): `e.target.value.replace(/\D/g, '')`.
Schema (part_000 lines 72-75): `z.string().min(1).refine(v =>
/^\d+$/.test(String(v).trim()) && parseInt(String(v).trim(), 10) >= 1)`. -/

/-- `parcelas` change handler: remove every non-digit (`replace(/\D/g, '')`,
JS `\d` is exactly ASCII `0-9`). -/
def normalizeParcelas (raw : String) : String :=
  ⟨raw.data.filter Char.isDigit⟩

/-- The JS regex test `/^\d+$/.test(t)`: `t` is a non-empty run of ASCII
digits. -/
def digitRunTest (t : String) : Bool :=
  decide (t.data ≠ []) && t.data.all Char.isDigit

/-- Schema acceptance for `parcelas`: `min(1)` then the refine
`/^\d+$/.test(v.trim()) && parseInt(v.trim(), 10) >= 1`. -/
def parcelasAccepts (v : String) : Bool :=
  decide (1 ≤ v.length) &&
    (digitRunTest (jsTrim v) && decide (1 ≤ parseDigits (jsTrim v).data))

/-! ## Component form: `short_code` normalization

`onChange` handler (SiteComponentsForm.tsx line 283):
`e.target.value.replace(/\s+/g, '_')` — every maximal run of whitespace
becomes a single underscore. -/

/-- Scanner for `replace(/\s+/g, '_')`: `inRun` records whether the previous
character belonged to a whitespace run already replaced. -/
def collapseWsAux (inRun : Bool) : List Char → List Char
  | [] => []
  | c :: rest =>
    if jsIsWhitespace c then
      (if inRun then collapseWsAux true rest else '_' :: collapseWsAux true rest)
    else c :: collapseWsAux false rest

/-- `short_code` change handler: `e.target.value.replace(/\s+/g, '_')`. -/
def normalizeShortCode (raw : String) : String :=
  ⟨collapseWsAux false raw.data⟩

/-! ## Course config reconciliation (part_000, `applyInitialData`)

Remote records arrive with possibly missing (`undefined`) or `null` parts;
both are modelled as `none` (the source only inspects them with `?.` and
`??`, which treat the two alike). -/

structure Tx2Item where
  name_label : String
  name_valor : String
deriving DecidableEq

structure RemotePaginaVenda where
  link : Option String
  label : Option String
deriving DecidableEq

structure RemoteAdcConfig where
  recheck : Option String
  recorrente : Option String
  cor : Option String
deriving DecidableEq

structure RemoteEadConfig where
  id_eadcontrol : Option String
deriving DecidableEq

/-- The `config` object of a loaded `CourseRecord`; every part optional. -/
structure RemoteCourseConfig where
  proximo_curso : Option String
  gratis : Option String
  comissao : Option String
  tx2 : Option (List Tx2Item)
  tipo_desconto_taxa : Option String
  desconto_taxa : Option String
  pagina_divulgacao : Option String
  video : Option String
  pagina_venda : Option RemotePaginaVenda
  adc : Option RemoteAdcConfig
  ead : Option RemoteEadConfig
deriving DecidableEq

/-- `pagina_venda` as handed to the form: when the remote sub-object is
taken verbatim its leaves may still be missing, hence `Option`. -/
structure ResetPaginaVenda where
  link : Option String
  label : Option String
deriving DecidableEq

structure ResetAdcConfig where
  recheck : Option String
  recorrente : Option String
  cor : Option String
deriving DecidableEq

structure ResetEadConfig where
  id_eadcontrol : Option String
deriving DecidableEq

structure ResetCourseConfig where
  proximo_curso : String
  gratis : String
  comissao : String
  tx2 : List Tx2Item
  tipo_desconto_taxa : String
  desconto_taxa : String
  pagina_divulgacao : String
  video : String
  pagina_venda : ResetPaginaVenda
  adc : ResetAdcConfig
  ead : ResetEadConfig
deriving DecidableEq

/-- The `config:` block of the `form.reset` call in `applyInitialData`
(part_000 lines 129-141).  `c.config?.x ?? d` is `(c.bind x).getD d`;
`c.config?.tx2?.length ? tx2 : [dflt]` tests JS truthiness of the length;
`c.config?.pagina_venda ?? dflt` (and `adc`, `ead`) substitute the whole
sub-object. -/
def resetConfig (c : Option RemoteCourseConfig) : ResetCourseConfig :=
  { proximo_curso := (c.bind RemoteCourseConfig.proximo_curso).getD ""
    gratis := (c.bind RemoteCourseConfig.gratis).getD "n"
    comissao := (c.bind RemoteCourseConfig.comissao).getD ""
    tx2 :=
      match c.bind RemoteCourseConfig.tx2 with
      | some l => if 0 < l.length then l else [⟨"", ""⟩]
      | none => [⟨"", ""⟩]
    tipo_desconto_taxa := (c.bind RemoteCourseConfig.tipo_desconto_taxa).getD "v"
    desconto_taxa := (c.bind RemoteCourseConfig.desconto_taxa).getD ""
    pagina_divulgacao := (c.bind RemoteCourseConfig.pagina_divulgacao).getD ""
    video := (c.bind RemoteCourseConfig.video).getD ""
    pagina_venda :=
      match c.bind RemoteCourseConfig.pagina_venda with
      | some pv => ⟨pv.link, pv.label⟩
      | none => ⟨some "", some ""⟩
    adc :=
      match c.bind RemoteCourseConfig.adc with
      | some a => ⟨a.recheck, a.recorrente, a.cor⟩
      | none => ⟨some "n", some "n", some "FFFFFF"⟩
    ead :=
      match c.bind RemoteCourseConfig.ead with
      | some e => ⟨e.id_eadcontrol⟩
      | none => ⟨some ""⟩ }

/-- `defaultValues.config` of the `useForm` call (part_000 lines 97-109). -/
def defaultCourseConfig : ResetCourseConfig :=
  { proximo_curso := ""
    gratis := "n"
    comissao := "0,00"
    tx2 := [⟨"", ""⟩]
    tipo_desconto_taxa := "v"
    desconto_taxa := ""
    pagina_divulgacao := ""
    video := ""
    pagina_venda := ⟨some "", some ""⟩
    adc := ⟨some "n", some "n", some "FFFFFF"⟩
    ead := ⟨some ""⟩ }

/-! ### Digit-string lemmas -/

theorem parseDigits_append (l₁ l₂ : List Char) :
    parseDigits (l₁ ++ l₂) =
      l₂.foldl (fun a c => a * 10 + (c.toNat - 48)) (parseDigits l₁) := by
  simp [parseDigits, List.foldl_append]

theorem char_ofNat_toNat_digit (m : Nat) (h : m < 10) :
    (Char.ofNat (48 + m)).toNat = 48 + m := by
  interval_cases m <;> decide

theorem char_ofNat_isDigit (m : Nat) (h : m < 10) :
    (Char.ofNat (48 + m)).isDigit = true := by
  interval_cases m <;> decide

theorem natDigits_all_digit (n : Nat) : (natDigits n).all Char.isDigit = true := by
  induction n using Nat.strong_induction_on with
  | _ n ih =>
    rw [natDigits]
    by_cases h : n < 10
    · simp [h, char_ofNat_isDigit n h]
    · have hd : n / 10 < n := Nat.div_lt_self (by omega) (by omega)
      simp only [h, dite_false, List.all_append]
      rw [ih _ hd]
      simp [char_ofNat_isDigit (n % 10) (Nat.mod_lt _ (by omega))]

theorem parseDigits_natDigits (n : Nat) : parseDigits (natDigits n) = n := by
  induction n using Nat.strong_induction_on with
  | _ n ih =>
    rw [natDigits]
    by_cases h : n < 10
    · simp [h, parseDigits, char_ofNat_toNat_digit n h]
    · have hd : n / 10 < n := Nat.div_lt_self (by omega) (by omega)
      simp only [h, dite_false]
      rw [parseDigits_append, ih _ hd]
      simp [char_ofNat_toNat_digit (n % 10) (Nat.mod_lt _ (by omega))]
      omega

theorem natDigits_ne_nil (n : Nat) : natDigits n ≠ [] := by
  rw [natDigits]
  by_cases h : n < 10 <;> simp [h]

/-- An ASCII digit is not JS whitespace. -/
theorem digit_not_ws (c : Char) (h : c.isDigit = true) : jsIsWhitespace c = false := by
  have h1 : 48 ≤ c.toNat ∧ c.toNat ≤ 57 := by
    simpa [Char.isDigit, Char.le_def, Char.toNat] using h
  simp only [jsIsWhitespace, Bool.or_eq_false_iff, Bool.and_eq_false_iff,
    decide_eq_false_iff_not]
  omega

theorem jsTrim_of_all_digits (v : String) (h : v.data.all Char.isDigit = true) :
    jsTrim v = v := by
  have hno : ∀ c ∈ v.data, jsIsWhitespace c = false := by
    intro c hc
    exact digit_not_ws c (by simpa using List.all_eq_true.mp h c hc)
  have h1 : v.data.dropWhile jsIsWhitespace = v.data := by
    cases hv : v.data with
    | nil => simp
    | cons a l =>
      rw [List.dropWhile_cons_of_neg]
      simp [hno a (by rw [hv]; exact List.mem_cons_self a l)]
  have h2 : v.data.reverse.dropWhile jsIsWhitespace = v.data.reverse := by
    cases hv : v.data.reverse with
    | nil => simp
    | cons a l =>
      rw [List.dropWhile_cons_of_neg]
      have : a ∈ v.data := by
        rw [← List.mem_reverse, hv]; exact List.mem_cons_self a l
      simp [hno a this]
  unfold jsTrim
  rw [h1, h2, List.reverse_reverse]

/-! ### C7: parcelas normalization and acceptance -/

/-- C7: every value stored by the `parcelas` change handler consists of
digits only, and the schema accepts a stored value exactly when it is
non-empty and its integer value is at least 1. -/
theorem parcelas_normalized_digits_and_schema (raw : String) :
    (normalizeParcelas raw).data.all Char.isDigit = true ∧
    (parcelasAccepts (normalizeParcelas raw) = true ↔
      normalizeParcelas raw ≠ "" ∧
        1 ≤ parseDigits (normalizeParcelas raw).data) := by
  have hall : (normalizeParcelas raw).data.all Char.isDigit = true := by
    simp only [normalizeParcelas, List.all_eq_true]
    intro c hc
    exact (List.mem_filter.mp hc).2
  refine ⟨hall, ?_⟩
  have htrim := jsTrim_of_all_digits _ hall
  have hdata : normalizeParcelas raw ≠ "" ↔ (normalizeParcelas raw).data ≠ [] := by
    constructor
    · intro h h2
      exact h (String.ext h2)
    · intro h h2
      rw [h2] at h
      exact h rfl
  simp only [parcelasAccepts, htrim, digitRunTest, hall, Bool.and_true,
    Bool.and_eq_true, decide_eq_true_eq]
  constructor
  · rintro ⟨h1, h2, h3⟩
    exact ⟨hdata.mpr h2, h3⟩
  · rintro ⟨h1, h2⟩
    have hd : (normalizeParcelas raw).data ≠ [] := hdata.mp h1
    have hlen : 0 < (normalizeParcelas raw).data.length := List.length_pos.mpr hd
    exact ⟨hlen, hd, h2⟩

/-! ### C10: short_code normalization -/

theorem length_dropWhile_le {α : Type} (p : α → Bool) (l : List α) :
    (l.dropWhile p).length ≤ l.length := by
  induction l with
  | nil => simp
  | cons a rest ih =>
    rw [List.dropWhile]
    cases hp : p a with
    | true => simpa using Nat.le_succ_of_le ih
    | false => simp

/-- Fuel-indexed core of `specReplaceMaximalWsRuns`; fuel at least the list
length gives the intended semantics. -/
def specReplaceAux : Nat → List Char → List Char
  | _, [] => []
  | 0, _ :: _ => []
  | fuel + 1, c :: rest =>
    if jsIsWhitespace c then
      '_' :: specReplaceAux fuel (rest.dropWhile jsIsWhitespace)
    else c :: specReplaceAux fuel rest

/-- The transformation as the spec words it: each maximal run of whitespace
is replaced by a single underscore. -/
def specReplaceMaximalWsRuns (l : List Char) : List Char :=
  specReplaceAux l.length l

theorem specReplaceAux_nil (f : Nat) : specReplaceAux f [] = [] := by
  cases f <;> rfl

theorem specReplaceAux_succ_cons (f : Nat) (c : Char) (l : List Char) :
    specReplaceAux (f + 1) (c :: l) =
      if jsIsWhitespace c then
        '_' :: specReplaceAux f (l.dropWhile jsIsWhitespace)
      else c :: specReplaceAux f l := rfl

theorem specReplaceAux_fuel_irrel :
    ∀ (n : Nat) (l : List Char), l.length ≤ n →
      ∀ f1 f2 : Nat, l.length ≤ f1 → l.length ≤ f2 →
        specReplaceAux f1 l = specReplaceAux f2 l := by
  intro n
  induction n with
  | zero =>
    intro l hl f1 f2 _ _
    have h0 : l = [] := List.length_eq_zero.mp (Nat.le_zero.mp hl)
    rw [h0, specReplaceAux_nil, specReplaceAux_nil]
  | succ n ih =>
    intro l hl f1 f2 h1 h2
    cases l with
    | nil => rw [specReplaceAux_nil, specReplaceAux_nil]
    | cons c rest =>
      simp only [List.length_cons] at hl h1 h2
      cases f1 with
      | zero => omega
      | succ a =>
        cases f2 with
        | zero => omega
        | succ b =>
          rw [specReplaceAux_succ_cons, specReplaceAux_succ_cons]
          have hr : rest.length ≤ n := by omega
          have hd : (rest.dropWhile jsIsWhitespace).length ≤ n :=
            le_trans (length_dropWhile_le jsIsWhitespace rest) hr
          have hda : (rest.dropWhile jsIsWhitespace).length ≤ a :=
            le_trans (length_dropWhile_le jsIsWhitespace rest) (by omega)
          have hdb : (rest.dropWhile jsIsWhitespace).length ≤ b :=
            le_trans (length_dropWhile_le jsIsWhitespace rest) (by omega)
          rw [ih (rest.dropWhile jsIsWhitespace) hd a b hda hdb,
            ih rest hr a b (by omega) (by omega)]

theorem collapseWsAux_cons_ws (b : Bool) (c : Char) (l : List Char)
    (h : jsIsWhitespace c = true) :
    collapseWsAux b (c :: l) =
      (if b then collapseWsAux true l else '_' :: collapseWsAux true l) := by
  simp [collapseWsAux, h]

theorem collapseWsAux_cons_not_ws (b : Bool) (c : Char) (l : List Char)
    (h : jsIsWhitespace c = false) :
    collapseWsAux b (c :: l) = c :: collapseWsAux false l := by
  simp [collapseWsAux, h]

theorem specReplace_nil : specReplaceMaximalWsRuns [] = [] := rfl

theorem specReplace_cons_ws (c : Char) (l : List Char)
    (h : jsIsWhitespace c = true) :
    specReplaceMaximalWsRuns (c :: l) =
      '_' :: specReplaceMaximalWsRuns (l.dropWhile jsIsWhitespace) := by
  unfold specReplaceMaximalWsRuns
  rw [List.length_cons, specReplaceAux_succ_cons, if_pos h]
  rw [specReplaceAux_fuel_irrel l.length (l.dropWhile jsIsWhitespace)
    (length_dropWhile_le jsIsWhitespace l) l.length
    (l.dropWhile jsIsWhitespace).length (length_dropWhile_le jsIsWhitespace l)
    (le_refl _)]

theorem specReplace_cons_not_ws (c : Char) (l : List Char)
    (h : jsIsWhitespace c = false) :
    specReplaceMaximalWsRuns (c :: l) = c :: specReplaceMaximalWsRuns l := by
  unfold specReplaceMaximalWsRuns
  rw [List.length_cons, specReplaceAux_succ_cons, if_neg (fun hc => by simp [h] at hc)]

theorem collapseWsAux_eq (l : List Char) :
    collapseWsAux false l = specReplaceMaximalWsRuns l ∧
    collapseWsAux true l = specReplaceMaximalWsRuns (l.dropWhile jsIsWhitespace) := by
  induction l with
  | nil => simp [collapseWsAux, specReplace_nil]
  | cons c rest ih =>
    cases h : jsIsWhitespace c with
    | true =>
      refine ⟨?_, ?_⟩
      · rw [collapseWsAux_cons_ws false c rest h, specReplace_cons_ws c rest h,
          if_neg (by simp)]
        rw [ih.2]
      · rw [collapseWsAux_cons_ws true c rest h, List.dropWhile_cons_of_pos h,
          if_pos rfl]
        exact ih.2
    | false =>
      refine ⟨?_, ?_⟩
      · rw [collapseWsAux_cons_not_ws false c rest h, specReplace_cons_not_ws c rest h,
          ih.1]
      · rw [collapseWsAux_cons_not_ws true c rest h,
          List.dropWhile_cons_of_neg (by simp [h]), specReplace_cons_not_ws c rest h,
          ih.1]

theorem collapseWsAux_no_ws (l : List Char) :
    ∀ b : Bool, ∀ c ∈ collapseWsAux b l, jsIsWhitespace c = false := by
  induction l with
  | nil =>
    intro b c hc
    simp [collapseWsAux] at hc
  | cons a rest ih =>
    intro b c hc
    cases h : jsIsWhitespace a with
    | true =>
      rw [collapseWsAux_cons_ws b a rest h] at hc
      cases b with
      | true =>
        rw [if_pos rfl] at hc
        exact ih true c hc
      | false =>
        rw [if_neg (by simp)] at hc
        rcases List.mem_cons.mp hc with h2 | h2
        · rw [h2]; decide
        · exact ih true c h2
    | false =>
      rw [collapseWsAux_cons_not_ws b a rest h] at hc
      rcases List.mem_cons.mp hc with h2 | h2
      · rw [h2]; exact h
      · exact ih false c h2

/-! ## Currency mask (spec-modelled)

`currencyApplyMask` and `currencyRemoveMaskToNumber` are imported from
`@/lib/masks/currency`, which is not part of the sources. They are modelled
from the spec (§4.1): stripping locale formatting reads the digits of the
input as an amount in centavos; masking re-renders the amount as
`<currency symbol><integer part with thousands separators>,<2-digit fraction>`
(the call sites fix the locale to pt-BR/BRL, symbol `R$ `, separator `.`,
decimal comma). -/

/-- Modelled from the spec: `currencyRemoveMaskToNumber` from
`@/lib/masks/currency` (missing from src) — strip every formatting
character (everything that is not a digit) and read the digits as
centavos, giving the numeric value. -/
def currencyRemoveMaskToNumber (s : String) : ℚ :=
  (parseDigits (s.data.filter Char.isDigit) : ℚ) / 100

/-- Two-digit rendering of the fraction part `r` (`r < 100`). -/
def pad2 (r : Nat) : List Char :=
  [Char.ofNat (48 + r / 10), Char.ofNat (48 + r % 10)]

/-- Thousands grouping on a reversed digit list: a separator `.` after
every three digits (counting from the least significant). -/
def group3Rev : List Char → List Char
  | a :: b :: c :: d :: rest => a :: b :: c :: '.' :: group3Rev (d :: rest)
  | l => l

/-- Thousands grouping on a digit list given most significant first. -/
def groupThousands (ds : List Char) : List Char :=
  (group3Rev ds.reverse).reverse

/-- Rendering of `n` centavos in the pt-BR/BRL mask shape. -/
def currencyMaskFormat (n : Nat) : String :=
  "R$ " ++ ⟨groupThousands (natDigits (n / 100))⟩ ++ "," ++ ⟨pad2 (n % 100)⟩

/-- Modelled from the spec: `currencyApplyMask` from `@/lib/masks/currency`
(missing from src) — parse the raw input's digits as centavos and re-render
in the mask shape. -/
def currencyApplyMask (s : String) : String :=
  currencyMaskFormat (parseDigits (s.data.filter Char.isDigit))

theorem filter_digit_group3Rev :
    ∀ (n : Nat) (l : List Char), l.length ≤ n →
      (group3Rev l).filter Char.isDigit = l.filter Char.isDigit := by
  intro n
  induction n with
  | zero =>
    intro l hl
    rw [List.length_eq_zero.mp (Nat.le_zero.mp hl)]
    rfl
  | succ n ih =>
    intro l hl
    match l with
    | [] => rfl
    | [a] => rfl
    | [a, b] => rfl
    | [a, b, c] => rfl
    | a :: b :: c :: d :: rest =>
      have hg : group3Rev (a :: b :: c :: d :: rest) =
          a :: b :: c :: '.' :: group3Rev (d :: rest) := rfl
      have hih : (group3Rev (d :: rest)).filter Char.isDigit =
          (d :: rest).filter Char.isDigit := by
        apply ih
        simp only [List.length_cons] at hl ⊢
        omega
      have hdot : ('.' : Char).isDigit = false := by decide
      rw [hg]
      simp [List.filter_cons, hdot, hih]

theorem filter_digit_groupThousands (ds : List Char)
    (h : ds.all Char.isDigit = true) :
    (groupThousands ds).filter Char.isDigit = ds := by
  unfold groupThousands
  rw [List.filter_reverse,
    filter_digit_group3Rev ds.reverse.length ds.reverse (le_refl _),
    List.filter_reverse, List.reverse_reverse]
  rw [List.filter_eq_self]
  intro a ha
  exact List.all_eq_true.mp h a ha

theorem pad2_all_digit (r : Nat) (h : r < 100) :
    (pad2 r).all Char.isDigit = true := by
  simp [pad2, char_ofNat_isDigit (r / 10) (by omega),
    char_ofNat_isDigit (r % 10) (Nat.mod_lt _ (by omega))]

/-- Digit extraction undoes the mask rendering. -/
theorem filter_digit_currencyMaskFormat (n : Nat) :
    (currencyMaskFormat n).data.filter Char.isDigit =
      natDigits (n / 100) ++ pad2 (n % 100) := by
  unfold currencyMaskFormat
  rw [String.data_append, String.data_append, String.data_append]
  rw [List.filter_append, List.filter_append, List.filter_append]
  have h1 : ("R$ " : String).data.filter Char.isDigit = [] := by decide
  have h2 : ("," : String).data.filter Char.isDigit = [] := by decide
  rw [h1, h2]
  have h3 := filter_digit_groupThousands (natDigits (n / 100)) (natDigits_all_digit _)
  have h4 := List.filter_eq_self.mpr (fun a ha =>
    List.all_eq_true.mp (pad2_all_digit (n % 100) (Nat.mod_lt _ (by omega))) a ha)
  rw [h3, h4]
  simp

theorem parseDigits_natDigits_pad2 (q r : Nat) (h : r < 100) :
    parseDigits (natDigits q ++ pad2 r) = q * 100 + r := by
  rw [parseDigits_append, parseDigits_natDigits]
  simp [pad2, List.foldl, char_ofNat_toNat_digit (r / 10) (by omega),
    char_ofNat_toNat_digit (r % 10) (Nat.mod_lt _ (by omega))]
  omega

/-- The digits of a masked rendering read back as the same centavos value. -/
theorem maskFormat_roundtrip (n : Nat) :
    parseDigits ((currencyMaskFormat n).data.filter Char.isDigit) = n := by
  rw [filter_digit_currencyMaskFormat,
    parseDigits_natDigits_pad2 (n / 100) (n % 100) (Nat.mod_lt _ (by omega))]
  omega

/-- C8: for every monetary raw input whose unmasked value is nonnegative,
`currencyApplyMask` is idempotent. -/
theorem currencyApplyMask_idempotent (s : String)
    (h : 0 ≤ currencyRemoveMaskToNumber s) :
    currencyApplyMask (currencyApplyMask s) = currencyApplyMask s := by
  unfold currencyApplyMask
  rw [maskFormat_roundtrip]

/-- Witness for C8 at the concrete input `"1234,56"`. -/
theorem currencyApplyMask_idempotent_witness :
    0 ≤ currencyRemoveMaskToNumber "1234,56" ∧
      currencyApplyMask (currencyApplyMask "1234,56") =
        currencyApplyMask "1234,56" := by
  constructor
  · unfold currencyRemoveMaskToNumber
    positivity
  · exact currencyApplyMask_idempotent "1234,56" (by
      unfold currencyRemoveMaskToNumber
      positivity)

/-- C10: the value stored by the `short_code` change handler is the typed
input with every maximal whitespace run replaced by one underscore, and it
never contains a whitespace character. -/
theorem short_code_stored_no_whitespace (raw : String) :
    normalizeShortCode raw = ⟨specReplaceMaximalWsRuns raw.data⟩ ∧
    ∀ c ∈ (normalizeShortCode raw).data, jsIsWhitespace c = false := by
  constructor
  · rw [normalizeShortCode, (collapseWsAux_eq raw.data).1]
  · intro c hc
    exact collapseWsAux_no_ws raw.data false c hc

/-! ## Course form schema (part_000 lines 45-82) and defaults

Zod strips keys the schema does not declare, so `config` plays no part in
validation; it is carried on the payload for fidelity to the form state. -/

structure CourseModule where
  etapa : String
  titulo : String
  limite : String
  valor : Option String
  aviao : Option (List String)
deriving DecidableEq

structure CoursePayload where
  nome : String
  titulo : String
  ativo : Option String
  destaque : Option String
  publicar : Option String
  duracao : String
  unidade_duracao : String
  tipo : String
  categoria : String
  config : ResetCourseConfig
  inscricao : String
  valor : String
  parcelas : String
  valor_parcela : String
  aeronaves : Option (List String)
  modulos : List CourseModule
deriving DecidableEq

/-- Field-path-keyed error map for one module row (`moduleSchema`). -/
structure ModuleErrors where
  etapa : Option String
  titulo : Option String
  limite : Option String
deriving DecidableEq

/-- Field-path-keyed error map for the whole record (`courseSchema`).
`modulos` holds one entry per module row, all-`none` when the row passes
(react-hook-form leaves such slots empty; only `isSome` is ever read). -/
structure CourseErrors where
  nome : Option String
  titulo : Option String
  ativo : Option String
  destaque : Option String
  publicar : Option String
  duracao : Option String
  unidade_duracao : Option String
  tipo : Option String
  categoria : Option String
  inscricao : Option String
  valor : Option String
  parcelas : Option String
  valor_parcela : Option String
  modulos : List ModuleErrors
deriving DecidableEq

/-- Zod's default message for a failed `min(1)` without custom text. -/
def zodMin1Message : String := "String must contain at least 1 character(s)"

/-- Zod's default message for an invalid enum member. -/
def zodEnumMessage : String := "Invalid enum value"

/-- `moduleSchema`: `etapa` min 1, `titulo` min 1 with custom message,
`limite` min 1; `valor` and `aviao` optional and unconstrained. -/
def validateModule (m : CourseModule) : ModuleErrors :=
  { etapa := if m.etapa.length < 1 then some zodMin1Message else none
    titulo := if m.titulo.length < 1 then some "Título é obrigatório" else none
    limite := if m.limite.length < 1 then some zodMin1Message else none }

/-- `z.enum(['s','n']).optional()`: absent passes; present must be a member. -/
def enumSNError (v : Option String) : Option String :=
  match v with
  | none => none
  | some x => if x = "s" ∨ x = "n" then none else some zodEnumMessage

/-- `courseSchema` as an executable validator producing the error map.
A zod `.refine` runs only when the checks before it pass, so each field
reports its first failing rule. -/
def validateCourse (p : CoursePayload) : CourseErrors :=
  { nome := if p.nome.length < 1 then some "Nome interno é obrigatório" else none
    titulo := if p.titulo.length < 1 then some "Título é obrigatório" else none
    ativo := enumSNError p.ativo
    destaque := enumSNError p.destaque
    publicar := enumSNError p.publicar
    duracao :=
      if p.duracao.length < 1 then some "Duração é obrigatória"
      else if digitRunTest (jsTrim p.duracao) then none
      else some "Duração deve ser um número inteiro"
    unidade_duracao :=
      if p.unidade_duracao = "Hrs" ∨ p.unidade_duracao = "Min" then none
      else some "Unidade é obrigatória"
    tipo := if p.tipo.length < 1 then some "Tipo é obrigatório" else none
    categoria := if p.categoria.length < 1 then some "Categoria é obrigatória" else none
    inscricao :=
      if 0 ≤ currencyRemoveMaskToNumber p.inscricao then none
      else some "Inscrição inválida"
    valor :=
      if 0 ≤ currencyRemoveMaskToNumber p.valor then none
      else some "Valor inválido"
    parcelas :=
      if p.parcelas.length < 1 then some "Parcelas é obrigatório"
      else if digitRunTest (jsTrim p.parcelas) &&
          decide (1 ≤ parseDigits (jsTrim p.parcelas).data) then none
      else some "Parcelas deve ser inteiro >= 1"
    valor_parcela :=
      if 0 ≤ currencyRemoveMaskToNumber p.valor_parcela then none
      else some "Valor da parcela inválido"
    modulos := p.modulos.map validateModule }

def moduleHasError (e : ModuleErrors) : Bool :=
  e.etapa.isSome || e.titulo.isSome || e.limite.isSome

/-- Whether the error map blocks submission (any field or module failed). -/
def hasErrors (errs : CourseErrors) : Bool :=
  errs.nome.isSome || errs.titulo.isSome || errs.ativo.isSome ||
  errs.destaque.isSome || errs.publicar.isSome || errs.duracao.isSome ||
  errs.unidade_duracao.isSome || errs.tipo.isSome || errs.categoria.isSome ||
  errs.inscricao.isSome || errs.valor.isSome || errs.parcelas.isSome ||
  errs.valor_parcela.isSome || errs.modulos.any moduleHasError

/-- `onInvalid` (part_000 line 262): `Array.isArray(errors?.modulos) &&
errors.modulos.some(e => e?.titulo)`. -/
def hasModuleTitleError (errs : CourseErrors) : Bool :=
  errs.modulos.any (fun e => e.titulo.isSome)

/-- The toast description chosen by `onInvalid` (part_000 line 265). -/
def onInvalidMessage (errs : CourseErrors) : String :=
  if hasModuleTitleError errs then "Preencha o título em todos os módulos."
  else "Verifique os campos obrigatórios."

/-- `defaultValues` of the `useForm` call (part_000 lines 87-116). -/
def defaultCoursePayload : CoursePayload :=
  { nome := ""
    titulo := ""
    ativo := some "s"
    destaque := some "n"
    publicar := some "s"
    duracao := "0"
    unidade_duracao := "Hrs"
    tipo := "2"
    categoria := "cursos_online"
    config := defaultCourseConfig
    inscricao := "0,00"
    valor := "0,00"
    parcelas := "1"
    valor_parcela := "0,00"
    aeronaves := some []
    modulos := [] }

/-- Under the spec model of unmasking, every input's numeric value is
nonnegative, so the monetary refines never fail. -/
theorem currencyRemoveMask_nonneg (s : String) :
    0 ≤ currencyRemoveMaskToNumber s := by
  unfold currencyRemoveMaskToNumber
  positivity

theorem monetary_check_none (s msg : String) :
    (if 0 ≤ currencyRemoveMaskToNumber s then none else some msg) = none :=
  if_pos (currencyRemoveMask_nonneg s)

/-! ### C1: reconciliation is not per-leaf for the nested sub-objects -/

/-- A loaded record's config supplying only the `link` leaf of
`pagina_venda` and nothing else. -/
def c1Remote : RemoteCourseConfig :=
  { proximo_curso := none
    gratis := none
    comissao := none
    tx2 := none
    tipo_desconto_taxa := none
    desconto_taxa := none
    pagina_divulgacao := none
    video := none
    pagina_venda := some ⟨some "https://x", none⟩
    adc := none
    ead := none }

/-- C1 counterexample: for a record supplying only `pagina_venda.link`,
the reconciled `pagina_venda.label` is missing rather than its default
`""` — the supplied sub-object wipes out the other leaf's default, so
reconciliation of `pagina_venda` is per-object, not per-leaf. -/
theorem resetConfig_label_not_defaulted :
    (resetConfig (some c1Remote)).pagina_venda.link = some "https://x" ∧
    (resetConfig (some c1Remote)).pagina_venda.label = none ∧
    defaultCourseConfig.pagina_venda.label = some "" := by
  exact ⟨rfl, rfl, rfl⟩

/-- C1 (amended): the top-level leaves of `config` reconcile per-leaf
(remote value when present and non-null, else that leaf's fallback), but
the sub-objects `pagina_venda`, `adc` and `ead` reconcile per-object — a
supplied sub-object is taken verbatim, leaves it lacks staying missing,
while an absent one is replaced by its fully-populated default — and
`tx2` is taken only when supplied non-empty, else the one empty row; a
record with no config at all gets every leaf's fallback, which for
`comissao` is `""` rather than the creation default `"0,00"`. -/
theorem resetConfig_reconciliation (c : RemoteCourseConfig) :
    (resetConfig (some c)).proximo_curso = c.proximo_curso.getD "" ∧
    (resetConfig (some c)).gratis = c.gratis.getD "n" ∧
    (resetConfig (some c)).comissao = c.comissao.getD "" ∧
    (resetConfig (some c)).tipo_desconto_taxa = c.tipo_desconto_taxa.getD "v" ∧
    (resetConfig (some c)).desconto_taxa = c.desconto_taxa.getD "" ∧
    (resetConfig (some c)).pagina_divulgacao = c.pagina_divulgacao.getD "" ∧
    (resetConfig (some c)).video = c.video.getD "" ∧
    (resetConfig (some c)).tx2 =
      (c.tx2.map fun l => if 0 < l.length then l else [⟨"", ""⟩]).getD [⟨"", ""⟩] ∧
    (resetConfig (some c)).pagina_venda =
      (c.pagina_venda.map fun pv => ResetPaginaVenda.mk pv.link pv.label).getD
        ⟨some "", some ""⟩ ∧
    (resetConfig (some c)).adc =
      (c.adc.map fun a => ResetAdcConfig.mk a.recheck a.recorrente a.cor).getD
        ⟨some "n", some "n", some "FFFFFF"⟩ ∧
    (resetConfig (some c)).ead =
      (c.ead.map fun e => ResetEadConfig.mk e.id_eadcontrol).getD ⟨some ""⟩ ∧
    resetConfig none = { defaultCourseConfig with comissao := "" } := by
  refine ⟨rfl, rfl, rfl, rfl, rfl, rfl, rfl, ?_, ?_, ?_, ?_, rfl⟩
  · rcases hc : c.tx2 with _ | l <;> simp [resetConfig, hc]
  · rcases hc : c.pagina_venda with _ | pv <;> simp [resetConfig, hc]
  · rcases hc : c.adc with _ | a <;> simp [resetConfig, hc]
  · rcases hc : c.ead with _ | e <;> simp [resetConfig, hc]

/-! ### C5: onInvalid message classification -/

/-- The spec's sample failing record: empty top-level title and one module
with an empty title, everything else valid. -/
def c5Record : CoursePayload :=
  { defaultCoursePayload with
    nome := "Curso"
    titulo := ""
    modulos := [{ etapa := "etapa1", titulo := "", limite := "1",
                  valor := none, aviao := none }] }

/-- C5: on a failing submission the surfaced message is the
module-specific one exactly when the error map holds a missing-title error
for some module entry; the record with empty top-level and module titles
gets the module-specific message. -/
theorem onInvalid_message_selection :
    (∀ p : CoursePayload, hasErrors (validateCourse p) = true →
      (onInvalidMessage (validateCourse p) =
          "Preencha o título em todos os módulos." ↔
        hasModuleTitleError (validateCourse p) = true)) ∧
    hasErrors (validateCourse c5Record) = true ∧
    onInvalidMessage (validateCourse c5Record) =
      "Preencha o título em todos os módulos." := by
  refine ⟨?_, by simp only [validateCourse, monetary_check_none]; decide,
    by simp only [validateCourse, monetary_check_none]; decide⟩
  intro p _
  unfold onInvalidMessage
  cases h : hasModuleTitleError (validateCourse p) with
  | true => simp
  | false =>
    rw [if_neg (by decide : ¬(false = true))]
    exact ⟨fun hg => absurd hg (by decide), fun hf => absurd hf (by decide)⟩

/-- Witness for C5: the classification applied at the sample record. -/
theorem onInvalid_message_selection_witness :
    hasErrors (validateCourse c5Record) = true ∧
    (onInvalidMessage (validateCourse c5Record) =
        "Preencha o título em todos os módulos." ↔
      hasModuleTitleError (validateCourse c5Record) = true) :=
  ⟨by simp only [validateCourse, monetary_check_none]; decide,
    onInvalid_message_selection.1 c5Record
      (by simp only [validateCourse, monetary_check_none]; decide)⟩

/-! ### C6: validation outcome of the pure-defaults record -/

/-- C6: the record built purely from the form defaults, submitted
unchanged, fails on exactly the two intentionally-empty required fields —
`nome` and `titulo` — and every other schema rule passes its default. -/
theorem default_payload_validation :
    validateCourse defaultCoursePayload =
      { nome := some "Nome interno é obrigatório"
        titulo := some "Título é obrigatório"
        ativo := none
        destaque := none
        publicar := none
        duracao := none
        unidade_duracao := none
        tipo := none
        categoria := none
        inscricao := none
        valor := none
        parcelas := none
        valor_parcela := none
        modulos := [] } := by
  simp only [validateCourse, monetary_check_none]
  decide

/-! ## Upload lifecycle manager (SiteComponentsForm.tsx, `handleFilesDrop`)

The handler is async but single-threaded and cooperative (spec §5); one
complete run is modelled as a state transformer.  Preview handles
(`URL.createObjectURL`) are numbered by an allocation counter. -/

/-- A thrown upload error as the catch block reads it: `err?.body?.message`
and `err?.message`, each possibly absent/null (`none`) or a string,
possibly empty. -/
structure UploadError where
  bodyMessage : Option String
  message : Option String
deriving DecidableEq

/-- JS `a || b` for a possibly-missing string `a`: the empty string is
falsy, so it falls through to `b` just like `null`/`undefined`. -/
def jsOrString (a : Option String) (b : String) : String :=
  match a with
  | some s => if s = "" then b else s
  | none => b

/-- `err?.body?.message || err?.message || 'Falha ao enviar arquivo.'`
(line 150). -/
def uploadErrorMessage (e : UploadError) : String :=
  jsOrString e.bodyMessage (jsOrString e.message "Falha ao enviar arquivo.")

/-- Outcome of the sequential upload loop (lines 142-144): which batch
indices were attempted, which call returned normally, and the first
thrown error if any. -/
structure UploadLoopResult where
  attempted : List Nat
  succeeded : List Nat
  error : Option UploadError

/-- The `for … of` upload loop: each index in order, stopping at the first
throw. `upload` gives the behaviour of the external upload store per batch
index. -/
def uploadLoop (upload : Nat → Except UploadError Unit) :
    List Nat → UploadLoopResult
  | [] => ⟨[], [], none⟩
  | i :: rest =>
    match upload i with
    | Except.ok _ =>
      let r := uploadLoop upload rest
      ⟨i :: r.attempted, i :: r.succeeded, r.error⟩
    | Except.error e => ⟨[i], [], some e⟩

/-- The component-page state read and written by `handleFilesDrop`, plus
counters recording the externally visible effects. -/
structure UploadState where
  localPreviews : List Nat
  isUploading : Bool
  nextHandle : Nat
  revoked : List Nat
  uploadCalls : Nat
  uploadSuccesses : Nat
  refetches : Nat
  toasts : List String
deriving DecidableEq

def initialUploadState : UploadState := ⟨[], false, 0, [], 0, 0, 0, []⟩

/-- `handleFilesDrop` (lines 132-164) run to completion on a batch of
`files`: empty-batch guard; allocate one preview per file and append them;
upload sequentially, fail fast; refetch on full success, toast the error
message on a throw; finally revoke everything in the preview set, clear
it, and drop the uploading flag. -/
def handleFilesDrop (upload : Nat → Except UploadError Unit)
    (files : List String) (st : UploadState) : UploadState :=
  if files.length = 0 then st
  else
    let handles := (List.range files.length).map (st.nextHandle + ·)
    let previews := st.localPreviews ++ handles
    let r := uploadLoop upload (List.range files.length)
    { localPreviews := []
      isUploading := false
      nextHandle := st.nextHandle + files.length
      revoked := st.revoked ++ previews
      uploadCalls := st.uploadCalls + r.attempted.length
      uploadSuccesses := st.uploadSuccesses + r.succeeded.length
      refetches := st.refetches + (if r.error.isSome then 0 else 1)
      toasts := st.toasts ++
        (match r.error with
          | some e => [uploadErrorMessage e]
          | none => []) }

/-- Upload-store behaviour of the spec's 3-file scenario: the second call
(index 1) throws, the others return. -/
def secondCallFails : Nat → Except UploadError Unit :=
  fun i => if i = 1 then Except.error ⟨none, some "boom"⟩ else Except.ok ()

theorem uploadLoop_all_ok (upload : Nat → Except UploadError Unit)
    (l : List Nat) (h : ∀ j ∈ l, upload j = Except.ok ()) :
    uploadLoop upload l = ⟨l, l, none⟩ := by
  induction l with
  | nil => rfl
  | cons a rest ih =>
    have ha : upload a = Except.ok () := h a (List.mem_cons_self a rest)
    have hr := ih (fun j hj => h j (List.mem_cons_of_mem a hj))
    simp [uploadLoop, ha, hr]

theorem uploadLoop_first_failure (upload : Nat → Except UploadError Unit)
    (l₁ l₂ : List Nat) (k : Nat) (e : UploadError)
    (h1 : ∀ j ∈ l₁, upload j = Except.ok ())
    (h2 : upload k = Except.error e) :
    uploadLoop upload (l₁ ++ k :: l₂) = ⟨l₁ ++ [k], l₁, some e⟩ := by
  induction l₁ with
  | nil => simp [uploadLoop, h2]
  | cons a rest ih =>
    have ha : upload a = Except.ok () := h1 a (List.mem_cons_self a rest)
    have hr := ih (fun j hj => h1 j (List.mem_cons_of_mem a hj))
    simp [uploadLoop, ha, hr]

/-! ### C9: empty batch is a no-op -/

/-- C9: an empty file selection leaves the state untouched: no preview
allocation, the uploading flag never set, no upload call, no refetch, no
notification. -/
theorem handleFilesDrop_empty_noop (upload : Nat → Except UploadError Unit)
    (st : UploadState) : handleFilesDrop upload [] st = st := rfl

/-! ### C2: unconditional cleanup -/

/-- C2: for a non-empty batch, whether every upload call returns or one
throws, after the handler completes every preview handle allocated for the
batch has been revoked, the local preview set is empty and the uploading
flag is false; and in the 3-file run whose second call throws, exactly one
upload succeeds. -/
theorem handleFilesDrop_cleanup (upload : Nat → Except UploadError Unit)
    (files : List String) (st : UploadState) (h : files ≠ []) :
    (∀ i, i < files.length →
      st.nextHandle + i ∈ (handleFilesDrop upload files st).revoked) ∧
    (handleFilesDrop upload files st).localPreviews = [] ∧
    (handleFilesDrop upload files st).isUploading = false ∧
    (handleFilesDrop secondCallFails ["a", "b", "c"]
      initialUploadState).uploadSuccesses = 1 := by
  have hlen : ¬(files.length = 0) := fun h0 => h (List.length_eq_zero.mp h0)
  refine ⟨?_, ?_, ?_, by decide⟩
  · intro i hi
    have hmem : st.nextHandle + i ∈ (List.range files.length).map (st.nextHandle + ·) :=
      List.mem_map.mpr ⟨i, List.mem_range.mpr hi, rfl⟩
    unfold handleFilesDrop
    rw [if_neg hlen]
    exact List.mem_append.mpr (Or.inr (List.mem_append.mpr (Or.inr hmem)))
  · unfold handleFilesDrop
    rw [if_neg hlen]
  · unfold handleFilesDrop
    rw [if_neg hlen]

/-- Witness for C2 at the 3-file batch whose second upload call throws. -/
theorem handleFilesDrop_cleanup_witness :
    0 + 0 ∈ (handleFilesDrop secondCallFails ["a", "b", "c"]
      initialUploadState).revoked ∧
    (handleFilesDrop secondCallFails ["a", "b", "c"]
      initialUploadState).localPreviews = [] ∧
    (handleFilesDrop secondCallFails ["a", "b", "c"]
      initialUploadState).isUploading = false ∧
    (handleFilesDrop secondCallFails ["a", "b", "c"]
      initialUploadState).uploadSuccesses = 1 := by
  have H := handleFilesDrop_cleanup secondCallFails ["a", "b", "c"]
    initialUploadState (by decide)
  exact ⟨H.1 0 (by decide), H.2.1, H.2.2.1, H.2.2.2⟩

/-! ### C3: sequential fail-fast and the notification message -/

/-- Upload behaviour whose very first call throws carrying a present but
empty server body message alongside a transport message. -/
def emptyBodyMessageFailure : Nat → Except UploadError Unit :=
  fun _ => Except.error ⟨some "", some "erro de rede"⟩

/-- C3 counterexample: the error thrown by the first upload call carries a
present server body message (the empty string), yet the toast shows the
error's own message — "the server-supplied body message if present" fails
for a present-but-empty body message, because JS `||` treats `""` as
falsy. -/
theorem upload_message_counterexample :
    (UploadError.mk (some "") (some "erro de rede")).bodyMessage = some "" ∧
    (handleFilesDrop emptyBodyMessageFailure ["a"]
      initialUploadState).toasts = ["erro de rede"] := by
  exact ⟨rfl, by decide⟩

/-- C3 (amended): uploads run strictly sequentially in submission order;
if the call for file `k` throws, no later file is attempted, the
remote-listing refetch is skipped, and the user is notified with the
server body message when present and non-empty, else the error's own
message when present and non-empty, else the generic fallback. -/
theorem upload_failfast_and_message (upload : Nat → Except UploadError Unit)
    (files : List String) (st : UploadState) (k : Nat) (e : UploadError)
    (hk : k < files.length)
    (hpre : ∀ j, j < k → upload j = Except.ok ())
    (hfail : upload k = Except.error e) :
    uploadLoop upload (List.range files.length) =
      ⟨List.range (k + 1), List.range k, some e⟩ ∧
    (handleFilesDrop upload files st).uploadCalls = st.uploadCalls + (k + 1) ∧
    (handleFilesDrop upload files st).uploadSuccesses = st.uploadSuccesses + k ∧
    (handleFilesDrop upload files st).refetches = st.refetches ∧
    (handleFilesDrop upload files st).toasts =
      st.toasts ++ [uploadErrorMessage e] ∧
    (∀ b, e.bodyMessage = some b → b ≠ "" → uploadErrorMessage e = b) ∧
    (e.bodyMessage.getD "" = "" → ∀ m, e.message = some m → m ≠ "" →
      uploadErrorMessage e = m) ∧
    (e.bodyMessage.getD "" = "" → e.message.getD "" = "" →
      uploadErrorMessage e = "Falha ao enviar arquivo.") := by
  have hn : files.length = (k + 1) + (files.length - (k + 1)) := by omega
  have hsplit : List.range files.length =
      List.range k ++ k :: (List.range (files.length - (k + 1))).map ((k + 1) + ·) := by
    conv_lhs => rw [hn, List.range_add]
    rw [List.range_succ, List.append_assoc]
    rfl
  have hloop : uploadLoop upload (List.range files.length) =
      ⟨List.range k ++ [k], List.range k, some e⟩ := by
    rw [hsplit]
    exact uploadLoop_first_failure upload (List.range k) _ k e
      (fun j hj => hpre j (List.mem_range.mp hj)) hfail
  have hloop2 : uploadLoop upload (List.range files.length) =
      ⟨List.range (k + 1), List.range k, some e⟩ := by
    rw [hloop, List.range_succ]
  have hlen : ¬(files.length = 0) := by omega
  refine ⟨hloop2, ?_, ?_, ?_, ?_, ?_, ?_, ?_⟩
  · unfold handleFilesDrop
    rw [if_neg hlen, hloop2]
    simp
  · unfold handleFilesDrop
    rw [if_neg hlen, hloop2]
    simp
  · unfold handleFilesDrop
    rw [if_neg hlen, hloop2]
    rfl
  · unfold handleFilesDrop
    rw [if_neg hlen, hloop2]
  · intro b hb hne
    unfold uploadErrorMessage jsOrString
    rw [hb]
    simp [hne]
  · intro h0 m hm hne
    rcases hb : e.bodyMessage with _ | b
    · unfold uploadErrorMessage jsOrString
      rw [hb, hm]
      simp [hne]
    · have hbe : b = "" := by rw [hb] at h0; simpa using h0
      unfold uploadErrorMessage jsOrString
      rw [hb, hbe, hm]
      simp [hne]
  · intro h0 h1
    rcases hb : e.bodyMessage with _ | b
    · rcases hm : e.message with _ | m
      · unfold uploadErrorMessage jsOrString
        rw [hb, hm]
      · have hme : m = "" := by rw [hm] at h1; simpa using h1
        unfold uploadErrorMessage jsOrString
        rw [hb, hm, hme]
        simp
    · have hbe : b = "" := by rw [hb] at h0; simpa using h0
      rcases hm : e.message with _ | m
      · unfold uploadErrorMessage jsOrString
        rw [hb, hbe, hm]
        simp
      · have hme : m = "" := by rw [hm] at h1; simpa using h1
        unfold uploadErrorMessage jsOrString
        rw [hb, hbe, hm, hme]
        simp

/-- Witness for C3 at the 3-file batch whose second call throws. -/
theorem upload_failfast_and_message_witness :
    (handleFilesDrop secondCallFails ["a", "b", "c"]
      initialUploadState).refetches = 0 ∧
    (handleFilesDrop secondCallFails ["a", "b", "c"]
      initialUploadState).toasts = ["boom"] := by
  have H := upload_failfast_and_message secondCallFails ["a", "b", "c"]
    initialUploadState 1 ⟨none, some "boom"⟩ (by decide)
    (fun j hj => by
      have hj0 : j = 0 := by omega
      rw [hj0]
      rfl)
    rfl
  refine ⟨H.2.2.2.1, ?_⟩
  rw [H.2.2.2.2.1]
  rfl

/-! ## Gallery content-type gating (SiteComponentsForm.tsx lines 93-117)

`selectedTypeValue` is already a string (`String(form.watch(…) ?? '')`);
`isGallery` compares it with `'19'` both as a string and through JS
`Number()` coercion.  `Number()` is modelled over ℚ: NaN and ±Infinity
become `none` (either way they compare unequal to 19, the only use), and
IEEE-754 rounding is not modelled — it only diverges from ℚ on literals
with more significant digits than ever produced by the content-type ids
this field holds. -/

def decDigitVal (c : Char) : Option Nat :=
  if c.isDigit then some (c.toNat - 48) else none

def hexDigitVal (c : Char) : Option Nat :=
  if c.isDigit then some (c.toNat - 48)
  else if 97 ≤ c.toNat ∧ c.toNat ≤ 102 then some (c.toNat - 87)
  else if 65 ≤ c.toNat ∧ c.toNat ≤ 70 then some (c.toNat - 55)
  else none

def octDigitVal (c : Char) : Option Nat :=
  if 48 ≤ c.toNat ∧ c.toNat ≤ 55 then some (c.toNat - 48) else none

def binDigitVal (c : Char) : Option Nat :=
  if c.toNat = 48 ∨ c.toNat = 49 then some (c.toNat - 48) else none

/-- Digits of `l` in base `radix` via the per-character reader `val`;
`none` on an empty list or any invalid character. -/
def parseRadix (radix : Nat) (val : Char → Option Nat) (l : List Char) : Option Nat :=
  match l with
  | [] => none
  | _ =>
    l.foldl (fun acc c => acc.bind fun a => (val c).map fun d => a * radix + d)
      (some 0)

/-- Exponent part after `e`/`E`: optional sign then at least one digit. -/
def parseExponent : List Char → Option Int
  | [] => none
  | '+' :: ds =>
    if ds ≠ [] ∧ ds.all Char.isDigit then some (parseDigits ds) else none
  | '-' :: ds =>
    if ds ≠ [] ∧ ds.all Char.isDigit then some (-(parseDigits ds : Int)) else none
  | ds =>
    if ds.all Char.isDigit then some (parseDigits ds) else none

/-- Unsigned JS decimal literal: digits with optional fraction and
exponent, or a leading-dot fraction. -/
def parseDecimalLit (l : List Char) : Option ℚ :=
  let intPart := l.takeWhile Char.isDigit
  let rest1 := l.dropWhile Char.isDigit
  match rest1 with
  | '.' :: rest2 =>
    let fracPart := rest2.takeWhile Char.isDigit
    let rest3 := rest2.dropWhile Char.isDigit
    if intPart = [] ∧ fracPart = [] then none
    else
      let base : ℚ :=
        (parseDigits intPart : ℚ) +
          (parseDigits fracPart : ℚ) / ((10 : ℚ) ^ fracPart.length)
      match rest3 with
      | [] => some base
      | 'e' :: es => (parseExponent es).map fun ex => base * (10 : ℚ) ^ ex
      | 'E' :: es => (parseExponent es).map fun ex => base * (10 : ℚ) ^ ex
      | _ => none
  | 'e' :: es =>
    if intPart = [] then none
    else (parseExponent es).map fun ex => (parseDigits intPart : ℚ) * (10 : ℚ) ^ ex
  | 'E' :: es =>
    if intPart = [] then none
    else (parseExponent es).map fun ex => (parseDigits intPart : ℚ) * (10 : ℚ) ^ ex
  | [] => if intPart = [] then none else some (parseDigits intPart : ℚ)
  | _ => none

def infinityChars : List Char := ['I', 'n', 'f', 'i', 'n', 'i', 't', 'y']

/-- JS `Number(s)` for a string `s`: trim, empty means 0, a sign only on
decimal literals, `0x`/`0o`/`0b` radix literals unsigned; `none` for NaN
and ±Infinity. -/
def jsStringToNumber (s : String) : Option ℚ :=
  match (jsTrim s).data with
  | [] => some 0
  | '0' :: 'x' :: ds => (parseRadix 16 hexDigitVal ds).map (Nat.cast)
  | '0' :: 'X' :: ds => (parseRadix 16 hexDigitVal ds).map (Nat.cast)
  | '0' :: 'o' :: ds => (parseRadix 8 octDigitVal ds).map (Nat.cast)
  | '0' :: 'O' :: ds => (parseRadix 8 octDigitVal ds).map (Nat.cast)
  | '0' :: 'b' :: ds => (parseRadix 2 binDigitVal ds).map (Nat.cast)
  | '0' :: 'B' :: ds => (parseRadix 2 binDigitVal ds).map (Nat.cast)
  | '+' :: rest => if rest = infinityChars then none else parseDecimalLit rest
  | '-' :: rest =>
    if rest = infinityChars then none else (parseDecimalLit rest).map Neg.neg
  | rest => if rest = infinityChars then none else parseDecimalLit rest

/-- `isGallery` (line 105): `String(selectedTypeValue) === '19' ||
Number(selectedTypeValue) === 19`. -/
def isGallery (selectedTypeValue : String) : Bool :=
  selectedTypeValue = "19" || jsStringToNumber selectedTypeValue = some 19

/-- Modelled from the spec: the react-query behaviour behind
`uploadsQuery` — a query whose `enabled` flag is down is never fetched,
whatever its history; `enabled` is exactly `isGallery` (lines 112-117). -/
structure GalleryQueryState where
  fetches : Nat
deriving DecidableEq

/-- One render/evaluation step of `uploadsQuery` under the current
`tipo_conteudo` value. -/
def uploadsQueryStep (selectedTypeValue : String) (q : GalleryQueryState) :
    GalleryQueryState :=
  if isGallery selectedTypeValue then ⟨q.fetches + 1⟩ else q

/-! ### C4: the fetch happens exactly on the gallery discriminator -/

/-- C4: the remote upload listing is fetched exactly when the selected
content-type value matches the gallery discriminator 19 — its string form
equals `"19"` or its `Number()` coercion equals 19 — and for every other
value no fetch happens, regardless of prior fetch history. -/
theorem uploads_fetch_gated (v : String) (q : GalleryQueryState) :
    ((uploadsQueryStep v q).fetches = q.fetches + 1 ↔
      (v = "19" ∨ jsStringToNumber v = some 19)) ∧
    ((uploadsQueryStep v q).fetches = q.fetches ↔
      ¬(v = "19" ∨ jsStringToNumber v = some 19)) := by
  unfold uploadsQueryStep
  cases hg : isGallery v with
  | true =>
    have hd : v = "19" ∨ jsStringToNumber v = some 19 := by
      have := hg
      unfold isGallery at this
      rcases Bool.or_eq_true_iff.mp this with h1 | h2
      · exact Or.inl (by simpa using h1)
      · exact Or.inr (by simpa using h2)
    rw [if_pos rfl]
    constructor
    · exact ⟨fun _ => hd, fun _ => rfl⟩
    · exact ⟨fun hq => absurd (hq : q.fetches + 1 = q.fetches)
          (Nat.succ_ne_self q.fetches),
        fun hn => absurd hd hn⟩
  | false =>
    have hd : ¬(v = "19" ∨ jsStringToNumber v = some 19) := by
      intro hor
      have : isGallery v = true := by
        unfold isGallery
        rcases hor with h1 | h2
        · exact Bool.or_eq_true_iff.mpr (Or.inl (by simpa using h1))
        · exact Bool.or_eq_true_iff.mpr (Or.inr (by simpa using h2))
      rw [hg] at this
      exact absurd this (by decide)
    rw [if_neg Bool.false_ne_true]
    constructor
    · exact ⟨fun hq => absurd (hq : q.fetches = q.fetches + 1).symm
          (Nat.succ_ne_self q.fetches),
        fun hor => absurd hor hd⟩
    · exact ⟨fun _ => hd, fun _ => rfl⟩

/-- Witness for C4 at a non-gallery and a gallery value over a state with
prior fetch history. -/
theorem uploads_fetch_gated_witness :
    (uploadsQueryStep "20" ⟨5⟩).fetches = 5 ∧
    (uploadsQueryStep "19" ⟨5⟩).fetches = 6 :=
  ⟨(uploads_fetch_gated "20" ⟨5⟩).2.mpr (by decide),
   (uploads_fetch_gated "19" ⟨5⟩).1.mpr (by decide)⟩

/-- Witness for C7 at the concrete typed input `"a1b2"`. -/
theorem parcelas_normalized_digits_and_schema_witness :
    (normalizeParcelas "a1b2").data.all Char.isDigit = true ∧
    parcelasAccepts (normalizeParcelas "a1b2") = true :=
  ⟨(parcelas_normalized_digits_and_schema "a1b2").1,
   (parcelas_normalized_digits_and_schema "a1b2").2.mpr (by decide)⟩

/-- Witness for C10 at the concrete typed input `"a b"`. -/
theorem short_code_stored_no_whitespace_witness :
    normalizeShortCode "a b" = ⟨specReplaceMaximalWsRuns "a b".data⟩ ∧
    jsIsWhitespace 'a' = false :=
  ⟨(short_code_stored_no_whitespace "a b").1,
   (short_code_stored_no_whitespace "a b").2 'a' (by decide)⟩
